import Mathlib

/-!
Verification of fetch_treasury_securities.py: a shallow embedding of the
fetch-with-fallback pipeline (PrimaryFetcher, FallbackFetcher,
PortfolioAssembler, and the CSV-writing driver), with theorems settling the
behavioural claims of the specification.

The HTTP layer is abstracted as a given Response per endpoint; each embedded
function is a pure function of the responses it observes. Parsed JSON bodies
are restricted to the envelope convention the program is written against: a
JSON object whose top-level values are arrays of flat objects mapping keys to
string values. Console printing is not modelled (the spec declares it a
non-contract); the written CSV file is modelled as its list of lines.
-/

namespace TreasuryFetch

/-- A flat JSON object: an ordered association of keys to string values
(the spec directs modelling Records as ordered mappings from column name to
string value). -/
abbrev Obj := List (String × String)

/-- A parsed JSON response body (the value of response.json()), under the
envelope convention: a JSON object whose top-level values are arrays of flat
objects. Keys other than the data key are carried but never inspected. -/
abbrev Body := List (String × List Obj)

/-- One HTTP response as the program observes it: the status code, the raw
body text (response.text), and the parsed JSON body (response.json()). -/
structure Response where
  status_code : Nat
  text : String
  body : Body
deriving Repr, DecidableEq

/-- Key lookup in a parsed JSON object: the combination of the Python key
membership test and indexing on a dict. -/
def lookup (b : Body) (k : String) : Option (List Obj) :=
  (b.find? (fun p => p.1 == k)).map Prod.snd

/-- The tabular result (ResultSet): a pandas DataFrame restricted to what the
program uses, namely the column order and the rows it was built from. -/
structure DataFrame where
  columns : List String
  rows : List Obj
deriving Repr, DecidableEq

/-- Append a column name unless it is already present: the column-order
bookkeeping pandas performs when building a DataFrame from a list of dicts. -/
def insertColumn (cols : List String) (k : String) : List String :=
  if cols.contains k then cols else cols ++ [k]

/-- Columns of a DataFrame built from a list of flat objects: the keys of the
objects, in the order first encountered. -/
def columnsOf (objs : List Obj) : List String :=
  objs.foldl (fun cols o => o.foldl (fun a p => insertColumn a p.1) cols) []

/-- pd.DataFrame applied to a list of flat JSON objects: one row per object,
columns the keys in order of first appearance. -/
def DataFrame.ofObjs (objs : List Obj) : DataFrame :=
  ⟨columnsOf objs, objs⟩

/-- The RemoteRequestError taxonomy. Each constructor carries exactly the data
the corresponding raise statement interpolates into its message: the primary
non-200 error carries the status code and the raw response text, the primary
missing-data-key error carries the full parsed body, and the fallback non-200
error carries only the status code. -/
inductive RemoteRequestError where
  | primaryStatus (status : Nat) (text : String)
  | primaryMissingData (body : Body)
  | fallbackStatus (status : Nat)
deriving Repr, DecidableEq

/-- PrimaryFetcher (fetch_treasury_securities), as a function of the primary
response: on a non-200 status raise with the status code and response text;
then, if the parsed body lacks the data key, raise with the full parsed body;
otherwise return the DataFrame of the data array. -/
def fetch_treasury_securities (resp : Response) :
    Except RemoteRequestError DataFrame :=
  if resp.status_code ≠ 200 then
    .error (.primaryStatus resp.status_code resp.text)
  else
    match lookup resp.body "data" with
    | none => .error (.primaryMissingData resp.body)
    | some objs => .ok (DataFrame.ofObjs objs)

/-- FallbackFetcher (fetch_securities_from_treasurydirect), as a function of
the fallback response: on a non-200 status raise with only the status code;
otherwise return the DataFrame of data.get applied with default empty list,
so a missing data key yields an empty DataFrame rather than an error. -/
def fetch_securities_from_treasurydirect (resp : Response) :
    Except RemoteRequestError DataFrame :=
  if resp.status_code ≠ 200 then
    .error (.fallbackStatus resp.status_code)
  else
    .ok (DataFrame.ofObjs ((lookup resp.body "data").getD []))

/-- Which fetcher was invoked, used to trace the calls the assembler makes. -/
inductive Fetcher where
  | primary
  | fallback
deriving Repr, DecidableEq

/-- PortfolioAssembler (get_treasury_securities_portfolio) instrumented with
the sequence of fetcher invocations it performs: try the primary fetch; on
success return its result having invoked only the primary; on any error
invoke the fallback fetch once and return its outcome (its error, if any,
propagates uncaught). -/
def get_treasury_securities_portfolio_trace (p f : Response) :
    Except RemoteRequestError DataFrame × List Fetcher :=
  match fetch_treasury_securities p with
  | .ok df => (.ok df, [.primary])
  | .error _ => (fetch_securities_from_treasurydirect f, [.primary, .fallback])

/-- PortfolioAssembler proper: the result component of the traced run. -/
def get_treasury_securities_portfolio (p f : Response) :
    Except RemoteRequestError DataFrame :=
  (get_treasury_securities_portfolio_trace p f).1

/-- Characters that force quoting of a CSV field under minimal quoting. -/
def csvSpecial (c : Char) : Bool :=
  c == ',' || c == '"' || c == '\n' || c == '\r'

/-- One CSV field under minimal quoting: a value without special characters is
reproduced verbatim; otherwise it is wrapped in double quotes with inner
double quotes doubled. -/
def csvField (s : String) : String :=
  if s.toList.any csvSpecial then
    "\"" ++ String.join (s.toList.map
      (fun c => if c == '"' then "\"\"" else String.singleton c)) ++ "\""
  else s

/-- One CSV line: the fields joined by commas. -/
def csvRow (cells : List String) : String :=
  String.intercalate "," (cells.map csvField)

/-- The cell of a row at a column: the stored value when the key is present,
and the empty string (how a missing value prints in the CSV) otherwise. -/
def cell (o : Obj) (c : String) : String :=
  ((o.find? (fun p => p.1 == c)).map Prod.snd).getD ""

/-- DataFrame.to_csv with index=False, as the list of lines of the file: a
header row of the column names followed by one row per record, each row
listing the cells of that record in column order. -/
def DataFrame.to_csv (df : DataFrame) : List String :=
  csvRow df.columns :: df.rows.map (fun o => csvRow (df.columns.map (cell o)))

/-- The main driver as a function of the two responses: run the assembler and,
on success, write its DataFrame to the CSV file (the file content is the ok
value); the except branch re-raises, so an error outcome means the assembler
failed and no file was written. -/
def main_run (p f : Response) : Except RemoteRequestError (List String) :=
  (get_treasury_securities_portfolio p f).map DataFrame.to_csv

/-! Concrete responses used as evaluation witnesses. -/

/-- The one-record primary body of the specification example. -/
def exampleObj : Obj :=
  [("record_date", "2025-01-01"), ("avg_interest_rate_amt", "4.5")]

/-- A successful primary response carrying the specification example body. -/
def respPrimaryOk : Response :=
  ⟨200, "", [("data", [exampleObj])]⟩

/-- A failing response: HTTP 404 with a plain-text body. -/
def respNotFound : Response :=
  ⟨404, "Not Found", []⟩

/-- A 200 response whose parsed body has a foo key but no data key. -/
def respFooOnly : Response :=
  ⟨200, "", [("foo", [])]⟩

/-- A successful fallback response with two records. -/
def respFallbackOk : Response :=
  ⟨200, "", [("data", [[("record_date", "2024-06-01"), ("security_type", "Bill")],
                       [("record_date", "2024-05-01"), ("security_type", "Note")]])]⟩

/-- A failing fallback response: HTTP 503. -/
def respServerError : Response :=
  ⟨503, "Service Unavailable", []⟩

/-! Helper lemmas about the column collection. -/

/-- Membership in insertColumn: the old columns plus the inserted key. -/
lemma mem_insertColumn {cols : List String} {k c : String} :
    c ∈ insertColumn cols k ↔ c ∈ cols ∨ c = k := by
  unfold insertColumn
  by_cases h : k ∈ cols
  · rw [if_pos (by simpa using h)]
    constructor
    · exact Or.inl
    · rintro (hc | rfl)
      · exact hc
      · exact h
  · rw [if_neg (by simpa using h)]
    simp

/-- Membership after folding the keys of one object into the columns. -/
lemma mem_foldl_insertColumn (o : Obj) (cols : List String) (c : String) :
    c ∈ o.foldl (fun a p => insertColumn a p.1) cols ↔
      c ∈ cols ∨ ∃ p ∈ o, p.1 = c := by
  induction o generalizing cols with
  | nil => simp
  | cons hd tl ih =>
    rw [List.foldl_cons, ih, mem_insertColumn]
    constructor
    · rintro ((hc | rfl) | ⟨p, hp, rfl⟩)
      · exact Or.inl hc
      · exact Or.inr ⟨hd, List.mem_cons_self _ _, rfl⟩
      · exact Or.inr ⟨p, List.mem_cons_of_mem _ hp, rfl⟩
    · rintro (hc | ⟨p, hp, rfl⟩)
      · exact Or.inl (Or.inl hc)
      · rcases List.mem_cons.mp hp with rfl | hp
        · exact Or.inl (Or.inr rfl)
        · exact Or.inr ⟨p, hp, rfl⟩

/-- Membership after folding the keys of all objects into the columns. -/
lemma mem_foldl_columns (objs : List Obj) (cols : List String) (c : String) :
    c ∈ objs.foldl (fun a o => o.foldl (fun a p => insertColumn a p.1) a) cols ↔
      c ∈ cols ∨ ∃ o ∈ objs, ∃ p ∈ o, p.1 = c := by
  induction objs generalizing cols with
  | nil => simp
  | cons hd tl ih =>
    rw [List.foldl_cons, ih, mem_foldl_insertColumn]
    constructor
    · rintro ((hc | hp) | ⟨o, ho, hp⟩)
      · exact Or.inl hc
      · exact Or.inr ⟨hd, List.mem_cons_self _ _, hp⟩
      · exact Or.inr ⟨o, List.mem_cons_of_mem _ ho, hp⟩
    · rintro (hc | ⟨o, ho, hp⟩)
      · exact Or.inl (Or.inl hc)
      · rcases List.mem_cons.mp ho with rfl | ho
        · exact Or.inl (Or.inr hp)
        · exact Or.inr ⟨o, ho, hp⟩

/-- The columns of a DataFrame built from a list of flat objects are exactly
the keys occurring in those objects. -/
lemma mem_columnsOf {objs : List Obj} {c : String} :
    c ∈ columnsOf objs ↔ ∃ o ∈ objs, c ∈ o.map Prod.fst := by
  unfold columnsOf
  rw [mem_foldl_columns]
  simp [eq_comm]

/-- insertColumn preserves absence of duplicate column names. -/
lemma nodup_insertColumn {cols : List String} {k : String} (h : cols.Nodup) :
    (insertColumn cols k).Nodup := by
  unfold insertColumn
  split
  · exact h
  · rename_i hk
    have hk2 : k ∉ cols := by simpa using hk
    simpa [List.nodup_append, hk2] using h

/-- Folding the keys of one object preserves absence of duplicates. -/
lemma nodup_foldl_insertColumn (o : Obj) (cols : List String) (h : cols.Nodup) :
    (o.foldl (fun a p => insertColumn a p.1) cols).Nodup := by
  induction o generalizing cols with
  | nil => exact h
  | cons hd tl ih => exact ih _ (nodup_insertColumn h)

/-- The columns of a DataFrame built from a list of flat objects contain no
duplicates. -/
lemma nodup_columnsOf (objs : List Obj) : (columnsOf objs).Nodup := by
  unfold columnsOf
  have general : ∀ (l : List Obj) (cols : List String), cols.Nodup →
      (l.foldl (fun a o => o.foldl (fun a p => insertColumn a p.1) a) cols).Nodup := by
    intro l
    induction l with
    | nil => exact fun cols h => h
    | cons hd tl ih => exact fun cols h => ih _ (nodup_foldl_insertColumn hd cols h)
  exact general objs [] List.nodup_nil

/-- A 404 response whose parsed body does contain a data key. -/
def respNotFoundWithData : Response :=
  ⟨404, "gateway error", [("data", [])]⟩

/-! Claim theorems. -/

/-- C1: the assembler returns the primary result when the primary fetch
succeeds without ever invoking the fallback; on any primary error it invokes
the fallback exactly once, never re-invoking the primary, and returns the
fallback outcome; the returned value is always exactly one of the two fetch
results, never a merge. -/
theorem portfolio_fallback_policy (p f : Response) :
    (∀ df, fetch_treasury_securities p = .ok df →
       get_treasury_securities_portfolio p f = .ok df ∧
       (get_treasury_securities_portfolio_trace p f).2 = [Fetcher.primary] ∧
       (get_treasury_securities_portfolio_trace p f).2.count Fetcher.fallback = 0) ∧
    (∀ e, fetch_treasury_securities p = .error e →
       get_treasury_securities_portfolio p f = fetch_securities_from_treasurydirect f ∧
       (get_treasury_securities_portfolio_trace p f).2 =
         [Fetcher.primary, Fetcher.fallback] ∧
       (get_treasury_securities_portfolio_trace p f).2.count Fetcher.fallback = 1 ∧
       (get_treasury_securities_portfolio_trace p f).2.count Fetcher.primary = 1) ∧
    (get_treasury_securities_portfolio p f = fetch_treasury_securities p ∨
       get_treasury_securities_portfolio p f = fetch_securities_from_treasurydirect f) := by
  refine ⟨?_, ?_, ?_⟩
  · intro df h2
    refine ⟨?_, ?_, ?_⟩ <;>
      simp [get_treasury_securities_portfolio,
        get_treasury_securities_portfolio_trace, h2]
  · intro e h2
    refine ⟨?_, ?_, ?_, ?_⟩ <;>
      simp [get_treasury_securities_portfolio,
        get_treasury_securities_portfolio_trace, h2]
  · cases h : fetch_treasury_securities p with
    | ok df =>
      exact Or.inl (by
        simp [get_treasury_securities_portfolio,
          get_treasury_securities_portfolio_trace, h])
    | error e =>
      exact Or.inr (by
        simp [get_treasury_securities_portfolio,
          get_treasury_securities_portfolio_trace, h])

/-- Witness for C1: with a succeeding primary response the assembler returns
the primary result and the fallback is never invoked; with a 404 primary
response the fallback is invoked exactly once and its result is returned. -/
theorem portfolio_fallback_policy_witness :
    (get_treasury_securities_portfolio respPrimaryOk respFallbackOk =
       .ok (DataFrame.ofObjs [exampleObj]) ∧
     (get_treasury_securities_portfolio_trace respPrimaryOk respFallbackOk).2 =
       [Fetcher.primary] ∧
     (get_treasury_securities_portfolio_trace respPrimaryOk respFallbackOk).2.count
       Fetcher.fallback = 0) ∧
    (get_treasury_securities_portfolio respNotFound respFallbackOk =
       fetch_securities_from_treasurydirect respFallbackOk ∧
     (get_treasury_securities_portfolio_trace respNotFound respFallbackOk).2 =
       [Fetcher.primary, Fetcher.fallback] ∧
     (get_treasury_securities_portfolio_trace respNotFound respFallbackOk).2.count
       Fetcher.fallback = 1 ∧
     (get_treasury_securities_portfolio_trace respNotFound respFallbackOk).2.count
       Fetcher.primary = 1) :=
  ⟨(portfolio_fallback_policy respPrimaryOk respFallbackOk).1
     (DataFrame.ofObjs [exampleObj]) rfl,
   (portfolio_fallback_policy respNotFound respFallbackOk).2.1
     (.primaryStatus 404 "Not Found") rfl⟩

/-- C2: a 200 primary response whose parsed body holds the data key with an
array of N flat objects yields an ok DataFrame of exactly N rows (the objects
themselves) whose columns are exactly the keys of those objects, without
duplicates. -/
theorem fetch_primary_success_shape (resp : Response) (objs : List Obj)
    (hs : resp.status_code = 200) (hd : lookup resp.body "data" = some objs) :
    ∃ df, fetch_treasury_securities resp = .ok df ∧
      df.rows.length = objs.length ∧ df.rows = objs ∧
      df.columns.Nodup ∧
      ∀ c, c ∈ df.columns ↔ ∃ o ∈ objs, c ∈ o.map Prod.fst := by
  refine ⟨DataFrame.ofObjs objs, ?_, rfl, rfl, nodup_columnsOf objs,
    fun c => mem_columnsOf⟩
  unfold fetch_treasury_securities
  rw [if_neg (by simp [hs]), hd]

/-- Witness for C2 at the concrete one-record primary response. -/
theorem fetch_primary_success_shape_witness :
    ∃ df, fetch_treasury_securities respPrimaryOk = .ok df ∧
      df.rows.length = 1 ∧ df.rows = [exampleObj] ∧
      df.columns.Nodup ∧
      ∀ c, c ∈ df.columns ↔ ∃ o ∈ [exampleObj], c ∈ o.map Prod.fst :=
  fetch_primary_success_shape respPrimaryOk [exampleObj] rfl rfl

/-- C3: the primary fetch fails with a RemoteRequestError exactly when the
status is not 200 or the parsed body lacks the data key; the non-200 error
carries the status code and the raw response text, and the missing-key error
carries the full parsed body. -/
theorem fetch_primary_error_characterisation (resp : Response) :
    ((∃ e, fetch_treasury_securities resp = .error e) ↔
       (resp.status_code ≠ 200 ∨ lookup resp.body "data" = none)) ∧
    (resp.status_code ≠ 200 →
       fetch_treasury_securities resp =
         .error (.primaryStatus resp.status_code resp.text)) ∧
    (resp.status_code = 200 → lookup resp.body "data" = none →
       fetch_treasury_securities resp =
         .error (.primaryMissingData resp.body)) := by
  unfold fetch_treasury_securities
  by_cases hs : resp.status_code = 200
  · rw [if_neg (by simp [hs])]
    cases hd : lookup resp.body "data" with
    | none => simp [hs, hd]
    | some objs => simp [hs, hd]
  · rw [if_pos hs]
    simp [hs]

/-- Witness for C3: the 404 response produces the status-and-text error and
the 200 response without a data key produces the full-parsed-body error. -/
theorem fetch_primary_error_characterisation_witness :
    fetch_treasury_securities respNotFound =
      .error (.primaryStatus 404 "Not Found") ∧
    fetch_treasury_securities respFooOnly =
      .error (.primaryMissingData [("foo", [])]) :=
  ⟨(fetch_primary_error_characterisation respNotFound).2.1 (by decide),
   (fetch_primary_error_characterisation respFooOnly).2.2 rfl rfl⟩

/-- C4: a 200 primary response whose body lacks the data key is a primary
failure (never an ok DataFrame, in particular never a zero-row one), and the
run proceeds to invoke the fallback, returning its result. -/
theorem primary_missing_data_triggers_fallback (p f : Response)
    (hs : p.status_code = 200) (hd : lookup p.body "data" = none) :
    (∀ df, fetch_treasury_securities p ≠ .ok df) ∧
    get_treasury_securities_portfolio p f =
      fetch_securities_from_treasurydirect f ∧
    (get_treasury_securities_portfolio_trace p f).2.count Fetcher.fallback = 1 := by
  have herr : fetch_treasury_securities p =
      .error (.primaryMissingData p.body) := by
    unfold fetch_treasury_securities
    rw [if_neg (by simp [hs]), hd]
  refine ⟨?_, ?_, ?_⟩
  · intro df h
    rw [herr] at h
    cases h
  · simp [get_treasury_securities_portfolio,
      get_treasury_securities_portfolio_trace, herr]
  · simp [get_treasury_securities_portfolio,
      get_treasury_securities_portfolio_trace, herr]

/-- Witness for C4 at the 200 response whose body only has a foo key. -/
theorem primary_missing_data_triggers_fallback_witness :
    get_treasury_securities_portfolio respFooOnly respFallbackOk =
      fetch_securities_from_treasurydirect respFallbackOk ∧
    (get_treasury_securities_portfolio_trace respFooOnly respFallbackOk).2.count
      Fetcher.fallback = 1 :=
  (primary_missing_data_triggers_fallback respFooOnly respFallbackOk rfl rfl).2

/-- C5: a 200 fallback response whose body lacks the data key yields an ok,
empty DataFrame (zero rows) rather than an error. -/
theorem fallback_missing_data_yields_empty (resp : Response)
    (hs : resp.status_code = 200) (hd : lookup resp.body "data" = none) :
    fetch_securities_from_treasurydirect resp = .ok (DataFrame.ofObjs []) ∧
    ∀ df, fetch_securities_from_treasurydirect resp = .ok df →
      df.rows.length = 0 := by
  have h : fetch_securities_from_treasurydirect resp =
      .ok (DataFrame.ofObjs []) := by
    unfold fetch_securities_from_treasurydirect
    rw [if_neg (by simp [hs]), hd]
    rfl
  exact ⟨h, fun df hdf => by rw [h] at hdf; cases hdf; rfl⟩

/-- Witness for C5 at the 200 response whose body only has a foo key. -/
theorem fallback_missing_data_yields_empty_witness :
    fetch_securities_from_treasurydirect respFooOnly =
      .ok (DataFrame.ofObjs []) :=
  (fallback_missing_data_yields_empty respFooOnly rfl rfl).1

/-- C6: a non-200 fallback response yields a RemoteRequestError carrying only
the status code; in particular the error is the same whatever the response
text and parsed body are, so no response body is echoed. -/
theorem fallback_non200_status_only (resp : Response)
    (h : resp.status_code ≠ 200) :
    fetch_securities_from_treasurydirect resp =
      .error (.fallbackStatus resp.status_code) ∧
    ∀ (t : String) (b : Body),
      fetch_securities_from_treasurydirect ⟨resp.status_code, t, b⟩ =
        .error (.fallbackStatus resp.status_code) := by
  constructor
  · unfold fetch_securities_from_treasurydirect
    rw [if_pos h]
  · intro t b
    unfold fetch_securities_from_treasurydirect
    rw [if_pos h]

/-- Witness for C6 at the 503 fallback response. -/
theorem fallback_non200_status_only_witness :
    fetch_securities_from_treasurydirect respServerError =
      .error (.fallbackStatus 503) :=
  (fallback_non200_status_only respServerError (by decide)).1

/-- C7: when the primary fetch fails and the fallback fetch also fails, the
assembler propagates the fallback error, the whole run ends in that error
state, and no CSV output is produced. -/
theorem both_fail_propagates_fallback_error (p f : Response)
    (e₁ e₂ : RemoteRequestError)
    (hp : fetch_treasury_securities p = .error e₁)
    (hf : fetch_securities_from_treasurydirect f = .error e₂) :
    get_treasury_securities_portfolio p f = .error e₂ ∧
    main_run p f = .error e₂ ∧
    ∀ csv, main_run p f ≠ .ok csv := by
  have h1 : get_treasury_securities_portfolio p f = .error e₂ := by
    simp [get_treasury_securities_portfolio,
      get_treasury_securities_portfolio_trace, hp, hf]
  refine ⟨h1, ?_, ?_⟩
  · simp [main_run, h1, Except.map]
  · intro csv hc
    simp [main_run, h1, Except.map] at hc

/-- Witness for C7: primary 404 and fallback 503 end the run in the fallback
error with no CSV written. -/
theorem both_fail_propagates_fallback_error_witness :
    main_run respNotFound respServerError = .error (.fallbackStatus 503) :=
  (both_fail_propagates_fallback_error respNotFound respServerError
    (.primaryStatus 404 "Not Found") (.fallbackStatus 503) rfl rfl).2.1

/-- C8: a successful run writes the CSV of the returned DataFrame: a header
row of the columns in first-encountered order followed by one row per record
listing its cells in column order, each field without special characters
reproduced verbatim. -/
theorem csv_output_layout (p f : Response) (df : DataFrame)
    (h : get_treasury_securities_portfolio p f = .ok df) :
    main_run p f = .ok (DataFrame.to_csv df) ∧
    DataFrame.to_csv df =
      csvRow df.columns :: df.rows.map (fun o => csvRow (df.columns.map (cell o))) ∧
    (DataFrame.to_csv df).length = df.rows.length + 1 ∧
    ∀ s : String, s.toList.any csvSpecial = false → csvField s = s := by
  refine ⟨?_, rfl, by simp [DataFrame.to_csv], ?_⟩
  · simp [main_run, h, Except.map]
  · intro s hs
    unfold csvField
    rw [if_neg (by rw [hs]; decide)]

/-- Witness for C8: the specification example primary body produces exactly
the header record_date,avg_interest_rate_amt and the one data row with both
values verbatim. -/
theorem csv_output_layout_witness :
    main_run respPrimaryOk respServerError =
      .ok ["record_date,avg_interest_rate_amt", "2025-01-01,4.5"] := by
  have h := csv_output_layout respPrimaryOk respServerError
    (DataFrame.ofObjs [exampleObj]) rfl
  rw [h.1]
  rfl

/-- C9: a 200 fallback response whose parsed body holds the data key with an
array of N flat objects yields an ok DataFrame of exactly N rows whose
columns are exactly the keys of those objects — the same success conversion
as the primary fetch. -/
theorem fetch_fallback_success_shape (resp : Response) (objs : List Obj)
    (hs : resp.status_code = 200) (hd : lookup resp.body "data" = some objs) :
    ∃ df, fetch_securities_from_treasurydirect resp = .ok df ∧
      df.rows.length = objs.length ∧ df.rows = objs ∧
      df.columns.Nodup ∧
      ∀ c, c ∈ df.columns ↔ ∃ o ∈ objs, c ∈ o.map Prod.fst := by
  refine ⟨DataFrame.ofObjs objs, ?_, rfl, rfl, nodup_columnsOf objs,
    fun c => mem_columnsOf⟩
  unfold fetch_securities_from_treasurydirect
  rw [if_neg (by simp [hs]), hd]
  rfl

/-- Witness for C9 at the concrete two-record fallback response. -/
theorem fetch_fallback_success_shape_witness :
    ∃ df, fetch_securities_from_treasurydirect respFallbackOk = .ok df ∧
      df.rows.length = 2 ∧
      df.rows = [[("record_date", "2024-06-01"), ("security_type", "Bill")],
                 [("record_date", "2024-05-01"), ("security_type", "Note")]] ∧
      df.columns.Nodup ∧
      ∀ c, c ∈ df.columns ↔
        ∃ o ∈ [[("record_date", "2024-06-01"), ("security_type", "Bill")],
               [("record_date", "2024-05-01"), ("security_type", "Note")]],
          c ∈ o.map Prod.fst :=
  fetch_fallback_success_shape respFallbackOk
    [[("record_date", "2024-06-01"), ("security_type", "Bill")],
     [("record_date", "2024-05-01"), ("security_type", "Note")]] rfl rfl

/-- C10: the primary fetch checks the status before inspecting the body, so a
non-200 response raises the status-and-text error for every parsed body, data
key present or not; and the missing-data-key error implies the status was
200. -/
theorem primary_checks_status_before_body (resp : Response) :
    (resp.status_code ≠ 200 →
       ∀ b : Body,
         fetch_treasury_securities ⟨resp.status_code, resp.text, b⟩ =
           .error (.primaryStatus resp.status_code resp.text)) ∧
    (∀ b, fetch_treasury_securities resp = .error (.primaryMissingData b) →
       resp.status_code = 200) := by
  constructor
  · intro h b
    unfold fetch_treasury_securities
    rw [if_pos h]
  · intro b hb
    by_contra hs
    unfold fetch_treasury_securities at hb
    rw [if_pos hs] at hb
    simp at hb

/-- Witness for C10: a 404 response whose body does contain the data key
still raises the status-and-text error, not the missing-key error. -/
theorem primary_checks_status_before_body_witness :
    fetch_treasury_securities respNotFoundWithData =
      .error (.primaryStatus 404 "gateway error") :=
  (primary_checks_status_before_body respNotFoundWithData).1 (by decide)
    [("data", [])]

end TreasuryFetch
